import Mathlib

/- Shallow embedding of src/mewinfo.py (hwmon sensor data model).

   Conventions used throughout:
   - Python `int | float` values are modelled by the tagged union `NumV`,
     with Python floats modelled as exact rationals.
   - Filesystem reads are modelled by passing the relevant file contents
     explicitly: a file that may be absent becomes an `Option` field, and
     a glob result becomes a list in match order.
   - Python exceptions crossing a function boundary become `Except ExtErr`;
     `SensorNotSupported` is `ExtErr.notSupported`, an unbound local name
     (Python `NameError`) is `ExtErr.nameError`. -/

/-- Python `int | float` numeric union. `float q` carries the exact rational
value of the Python float. -/
inductive NumV where
  | int (n : Int)
  | float (q : ℚ)
deriving DecidableEq, Repr

/-- Numeric value of a `NumV`, forgetting the int/float tag. -/
def NumV.toRat : NumV → ℚ
  | .int n => (n : ℚ)
  | .float q => q

/-- True exactly when the value carries the Python `int` tag. -/
def NumV.isInt : NumV → Bool
  | .int _ => true
  | .float _ => false

/-- Embeds `adc_value` (mewinfo.py lines 24-36): read `<item>_raw` as int
(mandatory, here the `raw` argument), add `<item>_offset` if that file is
present (the `offset` argument, `none` when the file is absent), then
multiply by `<item>_scale` parsed as float if that file is present (the
`scale` argument). Python float multiplication promotes the result to
float; with no scale the value stays an int. -/
def adc_value (raw : Int) (offset : Option Int) (scale : Option ℚ) : NumV :=
  let raw1 : Int :=
    match offset with
    | some o => raw + o
    | none => raw
  match scale with
  | some s => .float ((raw1 : ℚ) * s)
  | none => .int raw1

/-- Embeds the `SensorKind` enum (mewinfo.py lines 197-211), in source
declaration order. -/
inductive SensorKind where
  | VOLTAGE
  | FAN
  | FAN_PWM
  | TEMPERATURE
  | CURRENT
  | POWER
  | ENERGY
  | HUMIDITY
  | ALARM
deriving DecidableEq, Repr

/-- The `unit` member of each `SensorKind` enum value (`None` becomes
`none`). -/
def SensorKind.unit : SensorKind → Option String
  | .VOLTAGE => some "mV"
  | .FAN => none
  | .FAN_PWM => none
  | .TEMPERATURE => some "m°C"
  | .CURRENT => some "mA"
  | .POWER => some "µW"
  | .ENERGY => some "µJ"
  | .HUMIDITY => none
  | .ALARM => none

/-- Python `kind.name.lower()`: the enum member name in lowercase. -/
def SensorKind.pyName : SensorKind → String
  | .VOLTAGE => "voltage"
  | .FAN => "fan"
  | .FAN_PWM => "fan_pwm"
  | .TEMPERATURE => "temperature"
  | .CURRENT => "current"
  | .POWER => "power"
  | .ENERGY => "energy"
  | .HUMIDITY => "humidity"
  | .ALARM => "alarm"

/-- All enum members in iteration order (`for kind in SensorKind`). -/
def SensorKind.all : List SensorKind :=
  [.VOLTAGE, .FAN, .FAN_PWM, .TEMPERATURE, .CURRENT, .POWER, .ENERGY,
   .HUMIDITY, .ALARM]

/-- Embeds the `SensorValue` dataclass (mewinfo.py lines 214-218). -/
structure SensorValue where
  label : Option String
  kind : SensorKind
  value : NumV
deriving DecidableEq, Repr

/-- Embeds the `Sensor` dataclass fields (mewinfo.py lines 244-247). -/
structure Sensor where
  name : String
  values : List SensorValue
deriving DecidableEq, Repr

/-- The three display components assembled by `SensorValue.__str__`
(mewinfo.py lines 231-237): the label text (falling back to the lowercase
kind name when the label is `None` or empty, Python `self.label or
self.kind.name.lower()`), the displayed numeric value, and the displayed
unit text (`unit or ''`). -/
structure Rendered where
  label : String
  value : NumV
  unit : String
deriving DecidableEq, Repr

/-- Python `unit.startswith('m')` on the unit string. -/
def headIsM (s : String) : Bool :=
  match s.data with
  | [] => false
  | c :: _ => c == 'm'

/-- Python `unit.lstrip('m')`: remove all leading `m` characters. -/
def lstripM (s : String) : String :=
  ⟨s.data.dropWhile (fun c => c == 'm')⟩

/-- Embeds the body of `SensorValue.__str__`: when the unit starts with
`m` the value is divided by 1000 (Python true division, always a float)
and all leading `m` characters are stripped from the unit
(`unit.lstrip('m')`); otherwise value and unit are shown unchanged, a
missing unit rendering as the empty string. -/
def SensorValue.render (v : SensorValue) : Rendered :=
  let labelText : String :=
    match v.label with
    | some l => if l = "" then v.kind.pyName else l
    | none => v.kind.pyName
  match v.kind.unit with
  | some u =>
      if headIsM u then
        ⟨labelText, .float (v.value.toRat / 1000), lstripM u⟩
      else
        ⟨labelText, v.value, u⟩
  | none => ⟨labelText, v.value, ""⟩

/-- Text form of a numeric value. Python `str(int)` for ints; for floats
the model prints an exact decimal form when the rational is an integer
(Python prints e.g. `25.0`) and a fraction otherwise (such values never
arise in the properties below). -/
def NumV.pyRepr : NumV → String
  | .int n => toString n
  | .float q =>
      if q.den = 1 then toString q.num ++ ".0"
      else toString q.num ++ "/" ++ toString q.den

/-- Full text of `SensorValue.__str__`:
`f'{label}: {value} {unit}'` over the rendered components. -/
def SensorValue.str (v : SensorValue) : String :=
  let r := v.render
  r.label ++ ": " ++ r.value.pyRepr ++ " " ++ r.unit

/-- Embeds `Sensor.__str__` (mewinfo.py lines 294-296):
`'Sensor {name}:\n  '` followed by the value lines joined by `'\n  '`. -/
def Sensor.str (s : Sensor) : String :=
  "Sensor " ++ s.name ++ ":\n  "
    ++ String.intercalate "\n  " (s.values.map SensorValue.str)

/-- JSON values as produced by the `json()` methods, keeping the Python
int/float distinction (`json.dump` prints ints and floats differently). -/
inductive JVal where
  | jstr (s : String)
  | jint (n : Int)
  | jnum (q : ℚ)
  | jarr (xs : List JVal)
  | jobj (fields : List (String × JVal))

/-- JSON form of a numeric union value. -/
def jvalOfNum : NumV → JVal
  | .int n => .jint n
  | .float q => .jnum q

/-- Embeds `SensorValue.json` (mewinfo.py lines 220-229) as the ordered
key/value list of the returned dict: `type` and `value` always, `unit`
only when the kind has one (the units are non-empty strings, so Python
truthiness equals presence), `label` only when the label is truthy, i.e.
neither `None` nor the empty string. -/
def SensorValue.jsonFields (v : SensorValue) : List (String × JVal) :=
  [("type", .jstr v.kind.pyName), ("value", jvalOfNum v.value)]
    ++ (match v.kind.unit with
        | some u => [("unit", JVal.jstr u)]
        | none => [])
    ++ (match v.label with
        | some l => if l = "" then [] else [("label", JVal.jstr l)]
        | none => [])

/-- The JSON object returned by `SensorValue.json`. -/
def SensorValue.json (v : SensorValue) : JVal :=
  .jobj v.jsonFields

/-- Embeds `Sensor.json` (mewinfo.py lines 288-292). -/
def Sensor.json (s : Sensor) : JVal :=
  .jobj [("name", .jstr s.name),
         ("values", .jarr (s.values.map SensorValue.json))]

/-- Inverse of `SensorKind.pyName`, used by the decoder. -/
def kindOfTypeName : String → Option SensorKind
  | "voltage" => some .VOLTAGE
  | "fan" => some .FAN
  | "fan_pwm" => some .FAN_PWM
  | "temperature" => some .TEMPERATURE
  | "current" => some .CURRENT
  | "power" => some .POWER
  | "energy" => some .ENERGY
  | "humidity" => some .HUMIDITY
  | "alarm" => some .ALARM
  | _ => none

/-- Reads a JSON number back into the numeric union. -/
def numOfJVal : JVal → Option NumV
  | .jint n => some (.int n)
  | .jnum q => some (.float q)
  | _ => none

/-- Decoder for the structured form of one sensor value: reads `type`,
`value` and the optional `label` key back into a `SensorValue` (an absent
`label` key decodes to `none`). -/
def SensorValue.decode (j : JVal) : Option SensorValue :=
  match j with
  | .jobj fields =>
      match List.lookup "type" fields, List.lookup "value" fields with
      | some (.jstr t), some vj =>
          match kindOfTypeName t, numOfJVal vj with
          | some k, some val =>
              some ⟨(match List.lookup "label" fields with
                     | some (.jstr l) => some l
                     | _ => none), k, val⟩
          | _, _ => none
      | _, _ => none
  | _ => none

/-- Decodes each element of a JSON array of sensor-value records. -/
def decodeValues : List JVal → Option (List SensorValue)
  | [] => some []
  | j :: js =>
      match SensorValue.decode j, decodeValues js with
      | some v, some vs => some (v :: vs)
      | _, _ => none

/-- Decoder for the structured form of a whole sensor. -/
def Sensor.decode (j : JVal) : Option Sensor :=
  match j with
  | .jobj fields =>
      match List.lookup "name" fields, List.lookup "values" fields with
      | some (.jstr n), some (.jarr vs) =>
          match decodeValues vs with
          | some values => some ⟨n, values⟩
          | none => none
      | _, _ => none
  | _ => none

/-- The (label, kind, value) view of a sensor value used by the round-trip
property. -/
def vTuple (v : SensorValue) : Option String × SensorKind × NumV :=
  (v.label, v.kind, v.value)

/-- Error values for exceptions escaping an extension: the
`SensorNotSupported` exception, and the Python `NameError` raised by
`RpiVoltage.extend` when its loop variable was never bound. -/
inductive ExtErr where
  | notSupported
  | nameError
deriving DecidableEq, Repr

/-- The per-channel numeric derivation inside `Sensor._parse` (mewinfo.py
lines 262-268): `value = int(v.read_text())`, then add `<s>_offset` when
that file is present. No scale file is ever read here, so the result is
always an int. -/
def Sensor.channelDerive (raw : Int) (offset : Option Int) : NumV :=
  .int (match offset with
        | some o => raw + o
        | none => raw)

/-- One glob match `<prefix><n>_input` in a hwmon directory, with the
contents of the channel files that `Sensor._parse` may read: the raw
reading (the `_input` file itself, mandatory), and the optional `_label`,
`_offset` and `_scale` files (`none` when absent). The `_scale` content is
carried so that the derivation of `Sensor._parse` can be compared with
`adc_value` on the same directory state; `Sensor._parse` itself never
reads it. -/
structure Channel where
  raw : Int
  label : Option String
  offset : Option Int
  scale : Option ℚ
deriving DecidableEq, Repr

/-- A hwmon group directory as seen by `Sensor._parse`: the `name` file
content, the glob matches `<prefix>*_input` for each kind in match order,
and the `*_alarm` glob matches as (file name, int content) pairs. -/
structure HwmonState where
  name : String
  channels : SensorKind → List Channel
  alarms : List (String × Int)

/-- Embeds `Sensor._parse` (mewinfo.py lines 251-273): for each kind in
enum order, each `<prefix>*_input` match becomes a `SensorValue` with the
optional label and the offset-adjusted int value; then each `*_alarm`
match becomes an ALARM value labelled with the full file name. -/
def Sensor.parseGeneric (h : HwmonState) : Sensor :=
  ⟨h.name,
   (SensorKind.all.flatMap fun kind =>
      (h.channels kind).map fun c =>
        ⟨c.label, kind, Sensor.channelDerive c.raw c.offset⟩)
     ++ h.alarms.map fun a => ⟨some a.1, .ALARM, .int a.2⟩⟩

/-- The iio device directory used by `Axp20Battery.extend`: contents of
`in_temp_raw` (mandatory for `adc_value`) and the optional
`in_temp_offset` and `in_temp_scale` files. -/
structure AdcDir where
  in_temp_raw : Int
  in_temp_offset : Option Int
  in_temp_scale : Option ℚ
deriving DecidableEq, Repr

/-- The filesystem topology inspected by `Axp20Battery.extend`
(mewinfo.py lines 311-328), abstracted from the resolved path walk:
`batteryAncestor` is whether some ancestor of the resolved hwmon path is
named `axp20x-battery-power-supply`; `driverName` is the name of the
resolution of the `driver` symlink next to that ancestor; `iio` is the
first `iio:device*` glob match inside the sibling `axp813-adc` directory,
`none` when the glob is empty. -/
structure Axp20Env where
  batteryAncestor : Bool
  driverName : String
  iio : Option AdcDir
deriving DecidableEq, Repr

/-- Embeds `Axp20Battery.extend`: raise `SensorNotSupported` when no
ancestor matches the power-supply name or the `driver` symlink does not
resolve to `axp20x-rsb`; raise it again when the `iio:device*` glob is
empty; otherwise append an unlabelled TEMPERATURE value derived by
`adc_value` from the `in_temp` channel of the iio directory. -/
def Axp20Battery.extend (env : Axp20Env) (base : Sensor) :
    Except ExtErr Sensor :=
  if env.batteryAncestor = false ∨ env.driverName ≠ "axp20x-rsb" then
    .error .notSupported
  else
    match env.iio with
    | none => .error .notSupported
    | some d =>
        .ok ⟨base.name,
             base.values
               ++ [⟨none, .TEMPERATURE,
                    adc_value d.in_temp_raw d.in_temp_offset
                      d.in_temp_scale⟩]⟩

/-- The loop variable left by `for i, a in enumerate(base.values): if
a.label == 'in0_lcrit_alarm': break` in `RpiVoltage.extend`: the first
value whose label matches, else the last value when the list is non-empty
(the loop ran to completion), else unbound (`none`, leading to a
`NameError` at the first use of `a`). -/
def pickA (vs : List SensorValue) : Option SensorValue :=
  match vs.find? (fun x => x.label == some "in0_lcrit_alarm") with
  | some a => some a
  | none => vs.getLast?

/-- Python `list.remove`: delete the first element equal to `a`. -/
def eraseFirst : List SensorValue → SensorValue → List SensorValue
  | [], _ => []
  | x :: xs, a => if x = a then xs else x :: eraseFirst xs a

/-- Embeds `RpiVoltage.extend` (mewinfo.py lines 334-342): take the loop
result `a` (see `pickA`), build `replace(a, label='low voltage alarm')`,
remove the first value equal to `a` and append the relabelled copy. With
an empty value list the first use of the unbound `a` raises `NameError`.
-/
def RpiVoltage.extend (base : Sensor) : Except ExtErr Sensor :=
  match pickA base.values with
  | none => .error .nameError
  | some a =>
      .ok ⟨base.name,
           eraseFirst base.values a
             ++ [{ a with label := some "low voltage alarm" }]⟩

/-- The two extension classes registered in `Sensor._SPECIAL`. -/
inductive ExtKind where
  | axp20Battery
  | rpiVoltage
deriving DecidableEq, Repr

/-- Embeds the `Sensor._SPECIAL` registry (mewinfo.py lines 345-346). -/
def lookupSpecial (name : String) : Option ExtKind :=
  if name = "axp20x_battery" then some .axp20Battery
  else if name = "rpi_volt" then some .rpiVoltage
  else none

/-- The full state a `Sensor.parse` call reads: the hwmon directory and
the extension topology around it. -/
structure Env where
  hwmon : HwmonState
  axp : Axp20Env

/-- Dispatch to the `extend` classmethod of a registered extension. -/
def runExt : ExtKind → Env → Sensor → Except ExtErr Sensor
  | .axp20Battery, env, s => Axp20Battery.extend env.axp s
  | .rpiVoltage, _, s => RpiVoltage.extend s

/-- Embeds `Sensor.parse` (mewinfo.py lines 275-286): parse the generic
sensor, look the name up in `_SPECIAL`, and on a hit run the extension,
catching only `SensorNotSupported` (which falls back to the generic
sensor); any other exception propagates. -/
def Sensor.parse (env : Env) : Except ExtErr Sensor :=
  let sensor := Sensor.parseGeneric env.hwmon
  match lookupSpecial env.hwmon.name with
  | some ext =>
      match runExt ext env sensor with
      | .ok s => .ok s
      | .error .notSupported => .ok sensor
      | .error e => .error e
  | none => .ok sensor

/-- Embeds the `Hwmon` dataclass (mewinfo.py lines 349-351). -/
structure Hwmon where
  sensors : List Sensor
deriving DecidableEq, Repr

/-- Embeds `Hwmon.json` (mewinfo.py lines 358-359). -/
def Hwmon.json (hw : Hwmon) : JVal :=
  .jarr (hw.sensors.map Sensor.json)

/-- Embeds `Hwmon.__str__` (mewinfo.py lines 361-362): the sensor blocks
joined by a single newline. -/
def Hwmon.str (hw : Hwmon) : String :=
  String.intercalate "\n" (hw.sensors.map Sensor.str)

/-- What the `sensors` subcommand writes (mewinfo.py lines 396-405):
either a JSON document or human-readable text. -/
inductive Output where
  | text (s : String)
  | js (j : JVal)

/-- Embeds the `sensors` CLI function given an already parsed collection:
in JSON mode, dump the structured form (no terminator); in text mode,
print the collection, an empty line, and the fixed terminator line. Each
`print` appends one newline. -/
def sensors_out (jsonMode : Bool) (hw : Hwmon) : Output :=
  if jsonMode then .js hw.json
  else .text (hw.str ++ "\n" ++ "\n" ++ "=^.^=" ++ "\n")

deriving instance DecidableEq for Except

theorem decode_json_val (v : SensorValue) (h : v.label ≠ some "") :
    SensorValue.decode v.json = some v := by
  obtain ⟨lab, k, val⟩ := v
  rcases lab with _ | l
  · cases k <;> cases val <;> rfl
  · have hl : ¬ l = "" := by
      intro e
      exact h (by rw [e])
    cases k <;> cases val <;>
      simp only [SensorValue.json, SensorValue.jsonFields, if_neg hl] <;> rfl

theorem decodeValues_map (vs : List SensorValue)
    (h : ∀ v ∈ vs, v.label ≠ some "") :
    decodeValues (vs.map SensorValue.json) = some vs := by
  induction vs with
  | nil => rfl
  | cons v rest ih =>
      have h1 : SensorValue.decode v.json = some v :=
        decode_json_val v (h v (by simp))
      have h2 : decodeValues (rest.map SensorValue.json) = some rest :=
        ih (fun x hx => h x (by simp [hx]))
      simp [decodeValues, h1, h2]

theorem sensor_decode_json (s : Sensor)
    (h : ∀ v ∈ s.values, v.label ≠ some "") :
    Sensor.decode s.json = some s := by
  obtain ⟨n, vs⟩ := s
  have h2 : decodeValues (vs.map SensorValue.json) = some vs :=
    decodeValues_map vs h
  calc Sensor.decode (Sensor.json ⟨n, vs⟩)
      = (match decodeValues (vs.map SensorValue.json) with
         | some values => some (⟨n, values⟩ : Sensor)
         | none => none) := rfl
    _ = some ⟨n, vs⟩ := by rw [h2]

theorem find_first_match (p : SensorValue → Bool) (pre post : List SensorValue)
    (a : SensorValue) (hpre : ∀ v ∈ pre, p v = false) (ha : p a = true) :
    (pre ++ a :: post).find? p = some a := by
  induction pre with
  | nil => simp only [List.nil_append, List.find?_cons_of_pos _ ha]
  | cons x xs ih =>
      have hx := hpre x (by simp)
      rw [List.cons_append, List.find?_cons_of_neg _ (by simp [hx])]
      exact ih (fun v hv => hpre v (by simp [hv]))

theorem eraseFirst_not_in_front (pre post : List SensorValue) (a : SensorValue)
    (hpre : ∀ v ∈ pre, v ≠ a) :
    eraseFirst (pre ++ a :: post) a = pre ++ post := by
  induction pre with
  | nil => simp [eraseFirst]
  | cons x xs ih =>
      have hx : x ≠ a := hpre x (by simp)
      rw [List.cons_append, eraseFirst, if_neg hx, List.cons_append,
          ih (fun v hv => hpre v (by simp [hv]))]

theorem filter_nil_of_false (p : SensorValue → Bool) :
    ∀ l : List SensorValue, (∀ v ∈ l, p v = false) → l.filter p = [] := by
  intro l
  induction l with
  | nil => intro _; rfl
  | cons x xs ih =>
      intro h
      have hx := h x (by simp)
      rw [List.filter_cons_of_neg (by simp [hx])]
      exact ih (fun v hv => h v (by simp [hv]))

theorem filter_self_of_true (p : SensorValue → Bool) :
    ∀ l : List SensorValue, (∀ v ∈ l, p v = true) → l.filter p = l := by
  intro l
  induction l with
  | nil => intro _; rfl
  | cons x xs ih =>
      intro h
      have hx := h x (by simp)
      rw [List.filter_cons_of_pos (by simp [hx])]
      rw [ih (fun v hv => h v (by simp [hv]))]

/-- Claim C1 (counterexample): the derivation used by generic sensor
parsing is NOT identical to `adc_value` on a directory state whose scale
file is present: with raw 1, no offset and scale 2, generic parsing
yields the int 1 while `adc_value` yields the float 2, so the claimed
scale multiplication step is missing from generic parsing. -/
theorem channelDerive_ignores_scale_cex :
    Sensor.channelDerive 1 none ≠ adc_value 1 none (some 2)
    ∧ Sensor.channelDerive 1 none = NumV.int 1
    ∧ adc_value 1 none (some 2) = NumV.float 2 := by
  refine ⟨by decide, rfl, ?_⟩
  simp [adc_value]

/-- Claim C1 (amended): the numeric derivation performed by generic
sensor parsing agrees with `adc_value` exactly on directory states with
no scale file; generic parsing never reads a scale file, so only the
raw+offset part of the derivation is shared. -/
theorem channelDerive_eq_adc_value_without_scale
    (raw : Int) (offset : Option Int) :
    Sensor.channelDerive raw offset = adc_value raw offset none := by
  cases offset <;> rfl

/-- Claim C2: `adc_value` returns the raw int with no offset and no
scale file, the int raw+o with offset o only, and the float (raw+o)*s
with offset o and scale s; the result is an int exactly when no scale
file was present. -/
theorem adc_value_spec (raw o : Int) (s : ℚ) :
    adc_value raw none none = NumV.int raw
    ∧ adc_value raw (some o) none = NumV.int (raw + o)
    ∧ adc_value raw (some o) (some s) = NumV.float (((raw + o : Int) : ℚ) * s)
    ∧ ∀ (offset : Option Int) (scale : Option ℚ),
        (adc_value raw offset scale).isInt = true ↔ scale = none := by
  refine ⟨rfl, rfl, rfl, ?_⟩
  intro offset scale
  cases offset <;> cases scale <;> simp [adc_value, NumV.isInt]

/-- Claim C3: when the driver name is registered and the dispatched
extension raises the not-supported signal on the generic sensor,
`Sensor.parse` returns exactly the generic parse result (same name and
values), and no error propagates to the caller. -/
theorem parse_falls_back_on_not_supported (env : Env) (ext : ExtKind)
    (hlook : lookupSpecial env.hwmon.name = some ext)
    (hns : runExt ext env (Sensor.parseGeneric env.hwmon)
             = .error .notSupported) :
    Sensor.parse env = .ok (Sensor.parseGeneric env.hwmon) := by
  simp [Sensor.parse, hlook, hns]

/-- Witness for C3: a hwmon group named `axp20x_battery` with no
matching battery ancestor makes the extension raise not-supported, and
`Sensor.parse` returns the generic sensor. -/
theorem parse_falls_back_on_not_supported_witness :
    lookupSpecial (Env.mk ⟨"axp20x_battery", fun _ => [], []⟩
        ⟨false, "", none⟩).hwmon.name = some .axp20Battery
    ∧ runExt .axp20Battery (Env.mk ⟨"axp20x_battery", fun _ => [], []⟩ ⟨false, "", none⟩)
        (Sensor.parseGeneric (Env.mk ⟨"axp20x_battery", fun _ => [], []⟩
          ⟨false, "", none⟩).hwmon) = .error .notSupported
    ∧ Sensor.parse (Env.mk ⟨"axp20x_battery", fun _ => [], []⟩ ⟨false, "", none⟩)
        = .ok (Sensor.parseGeneric (Env.mk ⟨"axp20x_battery", fun _ => [], []⟩
            ⟨false, "", none⟩).hwmon) :=
  ⟨rfl, rfl,
   parse_falls_back_on_not_supported
     (Env.mk ⟨"axp20x_battery", fun _ => [], []⟩ ⟨false, "", none⟩)
     .axp20Battery rfl rfl⟩

/-- Claim C4: for the milli-prefixed kinds (voltage, temperature,
current) text rendering shows the stored value divided by 1000 and the
unit with the milli prefix stripped; for the micro-prefixed kinds
(power, energy) the value is shown undivided and the unit keeps its
prefix. -/
theorem render_unit_scaling (lab : Option String) (val : NumV) :
    (SensorValue.render ⟨lab, .VOLTAGE, val⟩).value
        = NumV.float (val.toRat / 1000)
    ∧ (SensorValue.render ⟨lab, .VOLTAGE, val⟩).unit = "V"
    ∧ (SensorValue.render ⟨lab, .TEMPERATURE, val⟩).value
        = NumV.float (val.toRat / 1000)
    ∧ (SensorValue.render ⟨lab, .TEMPERATURE, val⟩).unit = "°C"
    ∧ (SensorValue.render ⟨lab, .CURRENT, val⟩).value
        = NumV.float (val.toRat / 1000)
    ∧ (SensorValue.render ⟨lab, .CURRENT, val⟩).unit = "A"
    ∧ (SensorValue.render ⟨lab, .POWER, val⟩).value = val
    ∧ (SensorValue.render ⟨lab, .POWER, val⟩).unit = "µW"
    ∧ (SensorValue.render ⟨lab, .ENERGY, val⟩).value = val
    ∧ (SensorValue.render ⟨lab, .ENERGY, val⟩).unit = "µJ" :=
  ⟨rfl, rfl, rfl, rfl, rfl, rfl, rfl, rfl, rfl, rfl⟩

/-- Claim C5 (counterexample): decoding the structured JSON form does
not reproduce the (label, kind, value) tuples of a sensor holding a
value whose label is the empty string: the `label` key is omitted from
the JSON record, so the tuple comes back with no label. -/
theorem json_roundtrip_cex :
    Sensor.decode (Sensor.json ⟨"x", [⟨some "", .FAN, .int 0⟩]⟩)
      = some ⟨"x", [⟨none, .FAN, .int 0⟩]⟩
    ∧ ¬ List.Perm (([(⟨none, .FAN, .int 0⟩ : SensorValue)]).map vTuple)
        (([(⟨some "", .FAN, .int 0⟩ : SensorValue)]).map vTuple) := by
  constructor
  · decide
  · intro hp
    have := List.Perm.mem_iff hp (a := vTuple ⟨none, .FAN, .int 0⟩)
    simp [vTuple] at this

/-- Claim C5 (amended): for every sensor none of whose values carries an
empty-string label, decoding the structured JSON form reproduces the
same name and the same multiset of (label, kind, value) tuples. -/
theorem json_roundtrip (s : Sensor)
    (h : ∀ v ∈ s.values, v.label ≠ some "") :
    ∃ s2, Sensor.decode s.json = some s2 ∧ s2.name = s.name
      ∧ List.Perm (s2.values.map vTuple) (s.values.map vTuple) :=
  ⟨s, sensor_decode_json s h, rfl, List.Perm.refl _⟩

/-- Witness for C5: a two-value sensor with one absent and one non-empty
label round-trips through the JSON form. -/
theorem json_roundtrip_witness :
    (∀ v ∈ (Sensor.mk "cpu_thermal"
        [⟨none, .TEMPERATURE, .int 45000⟩, ⟨some "vdd", .VOLTAGE, .int 5⟩]).values,
      v.label ≠ some "")
    ∧ ∃ s2, Sensor.decode (Sensor.json ⟨"cpu_thermal",
        [⟨none, .TEMPERATURE, .int 45000⟩, ⟨some "vdd", .VOLTAGE, .int 5⟩]⟩) = some s2
        ∧ s2.name = "cpu_thermal"
        ∧ List.Perm (s2.values.map vTuple)
            ((Sensor.mk "cpu_thermal"
              [⟨none, .TEMPERATURE, .int 45000⟩,
               ⟨some "vdd", .VOLTAGE, .int 5⟩]).values.map vTuple) :=
  ⟨by decide, json_roundtrip ⟨"cpu_thermal",
      [⟨none, .TEMPERATURE, .int 45000⟩, ⟨some "vdd", .VOLTAGE, .int 5⟩]⟩ (by decide)⟩

/-- Claim C6 (counterexample): for a `rpi_volt` sensor with exactly one
value labelled `in0_lcrit_alarm` but an existing value already labelled
`low voltage alarm`, the extension leaves TWO values with the
`low voltage alarm` label, so "exactly one value has label low voltage
alarm" fails as universally stated. -/
theorem rpi_relabel_existing_lva_cex :
    (([⟨some "low voltage alarm", .ALARM, .int 0⟩,
       ⟨some "in0_lcrit_alarm", .ALARM, .int 1⟩] : List SensorValue).filter
        (fun v => v.label == some "in0_lcrit_alarm")).length = 1
    ∧ RpiVoltage.extend ⟨"rpi_volt",
        [⟨some "low voltage alarm", .ALARM, .int 0⟩,
         ⟨some "in0_lcrit_alarm", .ALARM, .int 1⟩]⟩
      = .ok ⟨"rpi_volt",
          [⟨some "low voltage alarm", .ALARM, .int 0⟩,
           ⟨some "low voltage alarm", .ALARM, .int 1⟩]⟩
    ∧ (([⟨some "low voltage alarm", .ALARM, .int 0⟩,
         ⟨some "low voltage alarm", .ALARM, .int 1⟩] : List SensorValue).filter
        (fun v => v.label == some "low voltage alarm")).length = 2 := by
  decide

/-- Claim C6 (amended): for every `rpi_volt` sensor containing exactly
one value labelled `in0_lcrit_alarm` and no value already labelled
`low voltage alarm`, the extension succeeds; afterwards no value is
labelled `in0_lcrit_alarm`, exactly one value is labelled
`low voltage alarm` and it keeps the kind and value of the removed
original, and all other values are unchanged. -/
theorem rpi_relabel_unique_match (s : Sensor) (pre post : List SensorValue)
    (a : SensorValue)
    (hname : s.name = "rpi_volt")
    (hsplit : s.values = pre ++ a :: post)
    (ha : a.label = some "in0_lcrit_alarm")
    (hpre : ∀ v ∈ pre, v.label ≠ some "in0_lcrit_alarm")
    (hpost : ∀ v ∈ post, v.label ≠ some "in0_lcrit_alarm")
    (hlva : ∀ v ∈ s.values, v.label ≠ some "low voltage alarm") :
    RpiVoltage.extend s
      = .ok ⟨s.name, (pre ++ post)
               ++ [{ a with label := some "low voltage alarm" }]⟩
    ∧ (∀ v ∈ (pre ++ post) ++ [{ a with label := some "low voltage alarm" }],
         v.label ≠ some "in0_lcrit_alarm")
    ∧ ((pre ++ post) ++ [{ a with label := some "low voltage alarm" }]).filter
        (fun v => v.label == some "low voltage alarm")
        = [{ a with label := some "low voltage alarm" }]
    ∧ ((pre ++ post) ++ [{ a with label := some "low voltage alarm" }]).filter
        (fun v => ! (v.label == some "low voltage alarm"))
        = pre ++ post := by
  have hfind : (pre ++ a :: post).find?
      (fun x => x.label == some "in0_lcrit_alarm") = some a :=
    find_first_match _ pre post a (fun v hv => by simp [hpre v hv]) (by simp [ha])
  have hpick : pickA s.values = some a := by
    rw [hsplit]
    simp only [pickA, hfind]
  have herase : eraseFirst s.values a = pre ++ post := by
    rw [hsplit]
    exact eraseFirst_not_in_front pre post a
      (fun v hv hva => hpre v hv (by rw [hva, ha]))
  have hlabel : SensorValue.label { a with label := some "low voltage alarm" }
      = some "low voltage alarm" := rfl
  refine ⟨?_, ?_, ?_, ?_⟩
  · rw [RpiVoltage.extend, hpick]
    show Except.ok (Sensor.mk s.name (eraseFirst s.values a
        ++ [{ a with label := some "low voltage alarm" }])) = _
    rw [herase]
  · intro v hv
    rcases List.mem_append.mp hv with h1 | h2
    · rcases List.mem_append.mp h1 with hp | hq
      · exact hpre v hp
      · exact hpost v hq
    · have : v = { a with label := some "low voltage alarm" } := by
        simpa using h2
      rw [this, hlabel]
      intro hc
      exact Option.noConfusion hc (fun h => by simp at h)
  · rw [List.filter_append]
    rw [filter_nil_of_false _ (pre ++ post) ?hall]
    case hall =>
      intro v hv
      have hv2 : v ∈ s.values := by
        rw [hsplit]
        rcases List.mem_append.mp hv with hp | hq
        · exact List.mem_append.mpr (Or.inl hp)
        · exact List.mem_append.mpr (Or.inr (by simp [hq]))
      simp [hlva v hv2]
    simp
  · rw [List.filter_append]
    rw [filter_self_of_true _ (pre ++ post) ?hall2]
    case hall2 =>
      intro v hv
      have hv2 : v ∈ s.values := by
        rw [hsplit]
        rcases List.mem_append.mp hv with hp | hq
        · exact List.mem_append.mpr (Or.inl hp)
        · exact List.mem_append.mpr (Or.inr (by simp [hq]))
      simp [hlva v hv2]
    simp

/-- Witness for C6: a `rpi_volt` sensor with one other value and the
unique `in0_lcrit_alarm` value, relabelled in place at the end of the
list. -/
theorem rpi_relabel_unique_match_witness :
    (Sensor.mk "rpi_volt" [⟨some "other", .ALARM, .int 0⟩,
        ⟨some "in0_lcrit_alarm", .ALARM, .int 1⟩]).name = "rpi_volt"
    ∧ (Sensor.mk "rpi_volt" [⟨some "other", .ALARM, .int 0⟩,
        ⟨some "in0_lcrit_alarm", .ALARM, .int 1⟩]).values
      = [⟨some "other", .ALARM, .int 0⟩]
          ++ (⟨some "in0_lcrit_alarm", .ALARM, .int 1⟩ : SensorValue) :: []
    ∧ (⟨some "in0_lcrit_alarm", .ALARM, .int 1⟩ : SensorValue).label
        = some "in0_lcrit_alarm"
    ∧ (∀ v ∈ [(⟨some "other", .ALARM, .int 0⟩ : SensorValue)],
        v.label ≠ some "in0_lcrit_alarm")
    ∧ (∀ v ∈ ([] : List SensorValue), v.label ≠ some "in0_lcrit_alarm")
    ∧ (∀ v ∈ (Sensor.mk "rpi_volt" [⟨some "other", .ALARM, .int 0⟩,
          ⟨some "in0_lcrit_alarm", .ALARM, .int 1⟩]).values,
        v.label ≠ some "low voltage alarm")
    ∧ (RpiVoltage.extend ⟨"rpi_volt", [⟨some "other", .ALARM, .int 0⟩,
          ⟨some "in0_lcrit_alarm", .ALARM, .int 1⟩]⟩
        = .ok ⟨"rpi_volt", [⟨some "other", .ALARM, .int 0⟩,
            ⟨some "low voltage alarm", .ALARM, .int 1⟩]⟩
       ∧ (∀ v ∈ [(⟨some "other", .ALARM, .int 0⟩ : SensorValue),
            ⟨some "low voltage alarm", .ALARM, .int 1⟩],
           v.label ≠ some "in0_lcrit_alarm")
       ∧ ([(⟨some "other", .ALARM, .int 0⟩ : SensorValue),
            ⟨some "low voltage alarm", .ALARM, .int 1⟩].filter
             (fun v => v.label == some "low voltage alarm"))
           = [⟨some "low voltage alarm", .ALARM, .int 1⟩]
       ∧ ([(⟨some "other", .ALARM, .int 0⟩ : SensorValue),
            ⟨some "low voltage alarm", .ALARM, .int 1⟩].filter
             (fun v => ! (v.label == some "low voltage alarm")))
           = [⟨some "other", .ALARM, .int 0⟩]) :=
  ⟨rfl, rfl, rfl, by decide, by decide, by decide,
   rpi_relabel_unique_match
     ⟨"rpi_volt", [⟨some "other", .ALARM, .int 0⟩,
        ⟨some "in0_lcrit_alarm", .ALARM, .int 1⟩]⟩
     [⟨some "other", .ALARM, .int 0⟩] []
     ⟨some "in0_lcrit_alarm", .ALARM, .int 1⟩
     rfl rfl rfl (by decide) (by decide) (by decide)⟩

/-- Claim C7 (counterexample): a `rpi_volt` sensor with a non-empty
value list and no value labelled `in0_lcrit_alarm` does NOT make the
extension fail: the Python for/else semantics leave the loop variable
bound to the last value, which gets relabelled, and no error of any kind
is returned. -/
theorem rpi_no_match_no_error_cex :
    (∀ v ∈ ([⟨some "x", .ALARM, .int 0⟩] : List SensorValue),
      v.label ≠ some "in0_lcrit_alarm")
    ∧ RpiVoltage.extend ⟨"rpi_volt", [⟨some "x", .ALARM, .int 0⟩]⟩
        = .ok ⟨"rpi_volt", [⟨some "low voltage alarm", .ALARM, .int 0⟩]⟩
    ∧ ∀ e : ExtErr,
        RpiVoltage.extend ⟨"rpi_volt", [⟨some "x", .ALARM, .int 0⟩]⟩
          ≠ .error e := by
  refine ⟨by decide, by decide, ?_⟩
  intro e
  cases e <;> decide

/-- Claim C7 (amended): for a `rpi_volt` sensor with no value labelled
`in0_lcrit_alarm`, the extension fails with an error (a Python
`NameError`, not the not-supported signal) exactly when the value list
is empty; with a non-empty list it silently succeeds, removing the first
value equal to the LAST value and appending that value relabelled
`low voltage alarm`. -/
theorem rpi_no_match_behavior (s : Sensor)
    (hname : s.name = "rpi_volt")
    (hnone : ∀ v ∈ s.values, v.label ≠ some "in0_lcrit_alarm") :
    (s.values = [] → RpiVoltage.extend s = .error .nameError)
    ∧ ∀ pre a, s.values = pre ++ [a] →
        RpiVoltage.extend s
          = .ok ⟨s.name, eraseFirst s.values a
                   ++ [{ a with label := some "low voltage alarm" }]⟩ := by
  have hfind : s.values.find? (fun x => x.label == some "in0_lcrit_alarm")
      = none :=
    List.find?_eq_none.mpr (fun x hx => by simp [hnone x hx])
  constructor
  · intro he
    rw [RpiVoltage.extend, pickA, he]
    rfl
  · intro pre a hsplit
    have hlast : s.values.getLast? = some a := by
      rw [hsplit]
      exact List.getLast?_concat _
    have hpick : pickA s.values = some a := by
      rw [pickA, hfind, hlast]
    rw [RpiVoltage.extend, hpick]

/-- Witness for C7: a `rpi_volt` sensor with one value labelled `x`
satisfies the hypotheses; the empty-list branch holds vacuously and the
non-empty branch describes the silent relabelling. -/
theorem rpi_no_match_behavior_witness :
    (Sensor.mk "rpi_volt" [⟨some "x", .ALARM, .int 0⟩]).name = "rpi_volt"
    ∧ (∀ v ∈ (Sensor.mk "rpi_volt" [⟨some "x", .ALARM, .int 0⟩]).values,
        v.label ≠ some "in0_lcrit_alarm")
    ∧ (((Sensor.mk "rpi_volt" [⟨some "x", .ALARM, .int 0⟩]).values = [] →
          RpiVoltage.extend ⟨"rpi_volt", [⟨some "x", .ALARM, .int 0⟩]⟩
            = .error .nameError)
       ∧ ∀ pre a,
           (Sensor.mk "rpi_volt" [⟨some "x", .ALARM, .int 0⟩]).values
             = pre ++ [a] →
           RpiVoltage.extend ⟨"rpi_volt", [⟨some "x", .ALARM, .int 0⟩]⟩
             = .ok ⟨"rpi_volt",
                 eraseFirst [⟨some "x", .ALARM, .int 0⟩] a
                   ++ [{ a with label := some "low voltage alarm" }]⟩) :=
  ⟨rfl, by decide,
   rpi_no_match_behavior ⟨"rpi_volt", [⟨some "x", .ALARM, .int 0⟩]⟩ rfl (by decide)⟩

/-- Claim C8: with an `axp20x-battery-power-supply` ancestor whose
`driver` symlink resolves to `axp20x-rsb` and an `iio:device*` match
holding `in_temp_raw` 250 and `in_temp_scale` 0.1, the battery extension
returns the generic values plus exactly one appended unlabelled
TEMPERATURE value of 25.0. -/
theorem axp20_extend_appends_temperature (env : Axp20Env) (base : Sensor)
    (hanc : env.batteryAncestor = true)
    (hdrv : env.driverName = "axp20x-rsb")
    (hiio : env.iio = some ⟨250, none, some (1/10)⟩) :
    Axp20Battery.extend env base
      = .ok ⟨base.name, base.values ++ [⟨none, .TEMPERATURE, .float 25⟩]⟩ := by
  simp [Axp20Battery.extend, hanc, hdrv, hiio, adc_value]
  norm_num

/-- Witness for C8: a concrete matching topology and a one-value base
sensor gain the appended 25.0 temperature value. -/
theorem axp20_extend_appends_temperature_witness :
    (Axp20Env.mk true "axp20x-rsb" (some ⟨250, none, some (1/10)⟩)).batteryAncestor = true
    ∧ (Axp20Env.mk true "axp20x-rsb" (some ⟨250, none, some (1/10)⟩)).driverName = "axp20x-rsb"
    ∧ (Axp20Env.mk true "axp20x-rsb" (some ⟨250, none, some (1/10)⟩)).iio
        = some ⟨250, none, some (1/10)⟩
    ∧ Axp20Battery.extend ⟨true, "axp20x-rsb", some ⟨250, none, some (1/10)⟩⟩
        ⟨"axp20x_battery", [⟨some "cap", .VOLTAGE, .int 4⟩]⟩
        = .ok ⟨"axp20x_battery",
               [⟨some "cap", .VOLTAGE, .int 4⟩]
                 ++ [⟨none, .TEMPERATURE, .float 25⟩]⟩ :=
  ⟨rfl, rfl, rfl,
   axp20_extend_appends_temperature
     ⟨true, "axp20x-rsb", some ⟨250, none, some (1/10)⟩⟩
     ⟨"axp20x_battery", [⟨some "cap", .VOLTAGE, .int 4⟩]⟩ rfl rfl rfl⟩

/-- Claim C9 (counterexample): the top-level hwmon text rendering joins
consecutive sensor blocks with a single newline, not with a blank line:
for two sensors the rendered text is not the blank-line join of the two
blocks. -/
theorem hwmon_join_cex :
    Hwmon.str ⟨[⟨"a", []⟩, ⟨"b", []⟩]⟩ = "Sensor a:\n  \nSensor b:\n  "
    ∧ Hwmon.str ⟨[⟨"a", []⟩, ⟨"b", []⟩]⟩
        ≠ String.intercalate "\n\n"
            ([(⟨"a", []⟩ : Sensor), ⟨"b", []⟩].map Sensor.str) := by
  refine ⟨by decide, by decide⟩

/-- Claim C9 (amended): the top-level hwmon text rendering joins the
sensors' text blocks with a single newline; the fixed terminator line
`=^.^=` (preceded by one empty line) is appended in the human-readable
output mode only, while JSON mode emits only the structured form. -/
theorem hwmon_join_and_terminator (hw : Hwmon) :
    Hwmon.str hw = String.intercalate "\n" (hw.sensors.map Sensor.str)
    ∧ sensors_out false hw
        = .text (Hwmon.str hw ++ "\n" ++ "\n" ++ "=^.^=" ++ "\n")
    ∧ sensors_out true hw = .js (Hwmon.json hw) :=
  ⟨rfl, rfl, rfl⟩

/-- Claim C10: the structured JSON record of a sensor value reports the
stored value without milli descaling, the unit string (when the kind has
one) with its milli prefix intact, omits the `unit` key for unit-less
kinds, and omits the `label` key exactly when the label is `None` or the
empty string. -/
theorem sv_json_fields_spec (v : SensorValue) :
    List.lookup "value" v.jsonFields = some (jvalOfNum v.value)
    ∧ List.lookup "unit" v.jsonFields = v.kind.unit.map JVal.jstr
    ∧ List.lookup "label" v.jsonFields =
        (match v.label with
         | none => none
         | some l => if l = "" then none else some (JVal.jstr l)) := by
  obtain ⟨lab, k, val⟩ := v
  rcases lab with _ | l
  · cases k <;> exact ⟨rfl, rfl, rfl⟩
  · by_cases hl : l = ""
    · subst hl
      cases k <;> exact ⟨rfl, rfl, rfl⟩
    · cases k <;>
        simp only [SensorValue.jsonFields, if_neg hl] <;>
        exact ⟨rfl, rfl, rfl⟩
